import Mathlib

/-!
Verification of the AfroVice API (src/main.py), a FastAPI + SQLAlchemy CRUD
backend for an event/ticketing domain.  The embedding below mirrors:

* the SQLAlchemy models (one Lean structure per table row, one `DB` state
  holding every table plus the per-table identity counters the storage
  engine uses to assign primary keys);
* the pydantic create contracts (payload structures and their field-name
  lists, in pydantic declaration order);
* the pydantic read contracts (serializers producing `Json` objects with
  exactly the fields pydantic would render, in order);
* each route handler, as a function from the request payload and the
  current database to a response and the new database.  Storage-level
  constraints (the `unique=True` columns `Role.name` and
  `Music_Gender.name`, and every `ForeignKey` column) are enforced at the
  insert-and-commit step, exactly where PostgreSQL enforces them; a
  violated constraint surfaces as an uncaught `StorageError`, matching the
  unhandled IntegrityError the Python handlers let propagate.

Timestamps (`datetime`) are modelled as natural numbers; the server clock
value at handling time is an explicit `now` argument standing for
`datetime.utcnow()`.
-/

namespace AfroVice

/-- JSON values, as rendered in HTTP response bodies. -/
inductive Json where
  | null : Json
  | str : String → Json
  | num : Int → Json
  | arr : List Json → Json
  | obj : List (String × Json) → Json

/-- The field names of a JSON object (empty for non-objects). -/
def Json.keys : Json → List String
  | .obj fields => fields.map Prod.fst
  | _ => []

/-- Serialization of an `Optional[str]` attribute: `null` when absent. -/
def optStrJson : Option String → Json
  | none => Json.null
  | some s => Json.str s

/-- Serialization of an `Optional` numeric attribute: `null` when absent. -/
def optNatJson : Option Nat → Json
  | none => Json.null
  | some n => Json.num n

/-! ## Table rows (SQLAlchemy models) -/

/-- A row of table `Role`: id, created_at, name (unique). -/
structure RoleRow where
  id : Nat
  created_at : Nat
  name : String
deriving DecidableEq, Repr

/-- A row of table `User`. -/
structure UserRow where
  id : Nat
  created_at : Nat
  name : String
  email : String
  password : String
  role_id : Nat
  photo : Option String
deriving DecidableEq, Repr

/-- A row of table `Music_Gender`: id, created_at, name (unique). -/
structure MusicGenderRow where
  id : Nat
  created_at : Nat
  name : String
deriving DecidableEq, Repr

/-- A row of table `Artist`. -/
structure ArtistRow where
  id : Nat
  created_at : Nat
  name : String
  photo : String
deriving DecidableEq, Repr

/-- A row of table `Artist_Gender` (join entity, no HTTP endpoint). -/
structure ArtistGenderRow where
  id : Nat
  created_at : Nat
  artist_id : Nat
  music_gender_id : Nat
deriving DecidableEq, Repr

/-- A row of table `Event`. -/
structure EventRow where
  id : Nat
  created_at : Nat
  name : Option String
  logo : Option String
  price : Int
deriving DecidableEq, Repr

/-- A row of table `Presentation`. -/
structure PresentationRow where
  id : Nat
  created_at : Nat
  event_id : Nat
  date_start : Nat
  date_end : Option Nat
  flyer : String
deriving DecidableEq, Repr

/-- A row of table `Presentation_Artist` (join entity, no HTTP endpoint). -/
structure PresentationArtistRow where
  id : Nat
  created_at : Nat
  presentation_id : Nat
  artist_id : Nat
  schedule : Nat
deriving DecidableEq, Repr

/-- A row of table `Ticket`. -/
structure TicketRow where
  id : Nat
  created_at : Nat
  user_id : Nat
  presentation_id : Nat
deriving DecidableEq, Repr

/-- A row of table `Comment`; both foreign keys are nullable. -/
structure CommentRow where
  id : Nat
  created_at : Nat
  message : String
  presentation_id : Option Nat
  user_id : Option Nat
deriving DecidableEq, Repr

/-- The whole database: every table, plus the per-table identity sequence
the storage engine draws primary keys from. -/
structure DB where
  roles : List RoleRow
  users : List UserRow
  genders : List MusicGenderRow
  artists : List ArtistRow
  artistGenders : List ArtistGenderRow
  events : List EventRow
  presentations : List PresentationRow
  presentationArtists : List PresentationArtistRow
  tickets : List TicketRow
  comments : List CommentRow
  nextRoleId : Nat
  nextUserId : Nat
  nextGenderId : Nat
  nextArtistId : Nat
  nextEventId : Nat
  nextPresentationId : Nat
  nextTicketId : Nat
  nextCommentId : Nat
deriving DecidableEq, Repr

/-- A freshly initialized database: empty tables, sequences at 1. -/
def emptyDB : DB :=
  { roles := [], users := [], genders := [], artists := [], artistGenders := []
    events := [], presentations := [], presentationArtists := [], tickets := []
    comments := [], nextRoleId := 1, nextUserId := 1, nextGenderId := 1
    nextArtistId := 1, nextEventId := 1, nextPresentationId := 1
    nextTicketId := 1, nextCommentId := 1 }

/-! ## Create contracts (pydantic `*Create` schemas) -/

/-- `RoleCreate`: the payload of POST /roles. -/
structure RoleCreate where
  name : String
deriving DecidableEq, Repr

/-- `UserCreate`: the payload of POST /users (`UserBase` plus password). -/
structure UserCreate where
  name : String
  email : String
  photo : Option String
  role_id : Nat
  password : String
deriving DecidableEq, Repr

/-- `MusicGenderCreate`: the payload of POST /genders. -/
structure MusicGenderCreate where
  name : String
deriving DecidableEq, Repr

/-- `ArtistCreate`: the payload of POST /artists. -/
structure ArtistCreate where
  name : String
  photo : String
deriving DecidableEq, Repr

/-- `EventCreate`: the payload of POST /events. -/
structure EventCreate where
  name : Option String
  logo : Option String
  price : Int
deriving DecidableEq, Repr

/-- `PresentationCreate`: the payload of POST /presentations. -/
structure PresentationCreate where
  event_id : Nat
  date_start : Nat
  date_end : Option Nat
  flyer : String
deriving DecidableEq, Repr

/-- `TicketCreate`: the payload of POST /tickets. -/
structure TicketCreate where
  user_id : Nat
  presentation_id : Nat
deriving DecidableEq, Repr

/-- `CommentCreate`: the payload of POST /comments; both ids optional. -/
structure CommentCreate where
  message : String
  presentation_id : Option Nat
  user_id : Option Nat
deriving DecidableEq, Repr

/-- Field names of `RoleCreate`, in pydantic declaration order. -/
def roleCreateFields : List String := ["name"]

/-- Field names of `UserCreate` (inherited `UserBase` fields first). -/
def userCreateFields : List String :=
  ["name", "email", "photo", "role_id", "password"]

/-- Field names of `MusicGenderCreate`. -/
def musicGenderCreateFields : List String := ["name"]

/-- Field names of `ArtistCreate`. -/
def artistCreateFields : List String := ["name", "photo"]

/-- Field names of `EventCreate`. -/
def eventCreateFields : List String := ["name", "logo", "price"]

/-- Field names of `PresentationCreate`. -/
def presentationCreateFields : List String :=
  ["event_id", "date_start", "date_end", "flyer"]

/-- Field names of `TicketCreate`. -/
def ticketCreateFields : List String := ["user_id", "presentation_id"]

/-- Field names of `CommentCreate`. -/
def commentCreateFields : List String :=
  ["message", "presentation_id", "user_id"]

/-! ## Read contracts (pydantic `*Read` schemas, as JSON serializers) -/

/-- `RoleRead` serialization: `RoleBase` (name) plus id. -/
def roleToJson (r : RoleRow) : Json :=
  Json.obj [("name", Json.str r.name), ("id", Json.num r.id)]

/-- `UserRead` serialization: `UserBase` (name, email, photo, role_id) plus
id.  The stored password is not part of the read contract. -/
def userToJson (u : UserRow) : Json :=
  Json.obj [("name", Json.str u.name), ("email", Json.str u.email),
    ("photo", optStrJson u.photo), ("role_id", Json.num u.role_id),
    ("id", Json.num u.id)]

/-- `MusicGenderRead` serialization: name plus id. -/
def genderToJson (g : MusicGenderRow) : Json :=
  Json.obj [("name", Json.str g.name), ("id", Json.num g.id)]

/-- `ArtistRead` serialization: name, photo, id. -/
def artistToJson (a : ArtistRow) : Json :=
  Json.obj [("name", Json.str a.name), ("photo", Json.str a.photo),
    ("id", Json.num a.id)]

/-- `EventRead` serialization: name, logo, price, id. -/
def eventToJson (e : EventRow) : Json :=
  Json.obj [("name", optStrJson e.name), ("logo", optStrJson e.logo),
    ("price", Json.num e.price), ("id", Json.num e.id)]

/-- `PresentationRead` serialization: event_id, date_start, date_end,
flyer, id. -/
def presentationToJson (p : PresentationRow) : Json :=
  Json.obj [("event_id", Json.num p.event_id),
    ("date_start", Json.num p.date_start),
    ("date_end", optNatJson p.date_end), ("flyer", Json.str p.flyer),
    ("id", Json.num p.id)]

/-- `TicketRead` serialization: user_id, presentation_id, id. -/
def ticketToJson (t : TicketRow) : Json :=
  Json.obj [("user_id", Json.num t.user_id),
    ("presentation_id", Json.num t.presentation_id),
    ("id", Json.num t.id)]

/-- `CommentRead` serialization: id, message, created_at, plus the
embedded `UserRead`/`PresentationRead` of the related rows (resolved from
the comment's nullable foreign keys against the database, as the ORM's
relationship loading does), `null` when the foreign key is absent. -/
def commentToJson (db : DB) (c : CommentRow) : Json :=
  Json.obj [("id", Json.num c.id), ("message", Json.str c.message),
    ("created_at", Json.num c.created_at),
    ("user",
      match c.user_id with
      | none => Json.null
      | some uid =>
        match db.users.find? (fun u => u.id == uid) with
        | none => Json.null
        | some u => userToJson u),
    ("presentation",
      match c.presentation_id with
      | none => Json.null
      | some pid =>
        match db.presentations.find? (fun p => p.id == pid) with
        | none => Json.null
        | some p => presentationToJson p)]

/-! ## Responses and storage errors -/

/-- An HTTP response produced by a handler: a status code with a JSON
body, or the 404 raised via `HTTPException(status_code=404, detail=...)`. -/
inductive Response where
  | ok (status : Nat) (body : Json)
  | notFound (detail : String)

/-- A storage-engine failure at commit time: a violated unique constraint
or a violated foreign-key constraint (table and column named).  The
handlers never catch these; they propagate to the caller. -/
inductive StorageError where
  | uniqueViolation (table column : String)
  | fkViolation (table column : String)
deriving DecidableEq, Repr

/-! ## Route handlers -/

/-- GET /ping. -/
def ping : Response := Response.ok 200 (Json.str "pong")

/-- GET /. -/
def hello : Response := Response.ok 200 (Json.str "Hello world from FastAPI")

/-- GET /roles: every row, serialized through `RoleRead`. -/
def list_roles (db : DB) : Response × DB :=
  (Response.ok 200 (Json.arr (db.roles.map roleToJson)), db)

/-- POST /roles: build a row stamped with the current clock, insert and
commit (the storage engine rejects a duplicate `Role.name`), return the
stored row through `RoleRead` with status 201. -/
def create_role (now : Nat) (role : RoleCreate) (db : DB) :
    Except StorageError (Response × DB) :=
  if db.roles.any (fun r => r.name == role.name) then
    Except.error (StorageError.uniqueViolation "Role" "name")
  else
    let row : RoleRow := ⟨db.nextRoleId, now, role.name⟩
    Except.ok (Response.ok 201 (roleToJson row),
      { db with roles := db.roles ++ [row], nextRoleId := db.nextRoleId + 1 })

/-- GET /users. -/
def list_users (db : DB) : Response × DB :=
  (Response.ok 200 (Json.arr (db.users.map userToJson)), db)

/-- GET /users/{user_id}: primary-key lookup; 404 with a static detail
when the id does not exist. -/
def get_user (user_id : Nat) (db : DB) : Response × DB :=
  match db.users.find? (fun u => u.id == user_id) with
  | none => (Response.notFound "User not found", db)
  | some u => (Response.ok 200 (userToJson u), db)

/-- POST /users: the stored row keeps the plain-text password; the
response is serialized through `UserRead`.  The storage engine rejects a
`role_id` that references no `Role` row. -/
def create_user (now : Nat) (user : UserCreate) (db : DB) :
    Except StorageError (Response × DB) :=
  if db.roles.any (fun r => r.id == user.role_id) then
    let row : UserRow :=
      ⟨db.nextUserId, now, user.name, user.email, user.password,
        user.role_id, user.photo⟩
    Except.ok (Response.ok 201 (userToJson row),
      { db with users := db.users ++ [row], nextUserId := db.nextUserId + 1 })
  else
    Except.error (StorageError.fkViolation "User" "role_id")

/-- GET /genders. -/
def list_music_genders (db : DB) : Response × DB :=
  (Response.ok 200 (Json.arr (db.genders.map genderToJson)), db)

/-- POST /genders: like POST /roles, with `Music_Gender.name` unique. -/
def create_music_gender (now : Nat) (gender : MusicGenderCreate) (db : DB) :
    Except StorageError (Response × DB) :=
  if db.genders.any (fun g => g.name == gender.name) then
    Except.error (StorageError.uniqueViolation "Music_Gender" "name")
  else
    let row : MusicGenderRow := ⟨db.nextGenderId, now, gender.name⟩
    Except.ok (Response.ok 201 (genderToJson row),
      { db with
          genders := db.genders ++ [row]
          nextGenderId := db.nextGenderId + 1 })

/-- GET /artists. -/
def list_artists (db : DB) : Response × DB :=
  (Response.ok 200 (Json.arr (db.artists.map artistToJson)), db)

/-- GET /artists/{artist_id}. -/
def get_artist (artist_id : Nat) (db : DB) : Response × DB :=
  match db.artists.find? (fun a => a.id == artist_id) with
  | none => (Response.notFound "Artist not found", db)
  | some a => (Response.ok 200 (artistToJson a), db)

/-- POST /artists: no storage constraint beyond the generated key. -/
def create_artist (now : Nat) (artist : ArtistCreate) (db : DB) :
    Except StorageError (Response × DB) :=
  let row : ArtistRow := ⟨db.nextArtistId, now, artist.name, artist.photo⟩
  Except.ok (Response.ok 201 (artistToJson row),
    { db with
        artists := db.artists ++ [row]
        nextArtistId := db.nextArtistId + 1 })

/-- GET /events. -/
def list_events (db : DB) : Response × DB :=
  (Response.ok 200 (Json.arr (db.events.map eventToJson)), db)

/-- GET /events/{event_id}. -/
def get_event (event_id : Nat) (db : DB) : Response × DB :=
  match db.events.find? (fun e => e.id == event_id) with
  | none => (Response.notFound "Event not found", db)
  | some e => (Response.ok 200 (eventToJson e), db)

/-- POST /events. -/
def create_event (now : Nat) (event : EventCreate) (db : DB) :
    Except StorageError (Response × DB) :=
  let row : EventRow :=
    ⟨db.nextEventId, now, event.name, event.logo, event.price⟩
  Except.ok (Response.ok 201 (eventToJson row),
    { db with
        events := db.events ++ [row]
        nextEventId := db.nextEventId + 1 })

/-- GET /presentations. -/
def list_presentations (db : DB) : Response × DB :=
  (Response.ok 200 (Json.arr (db.presentations.map presentationToJson)), db)

/-- GET /presentations/{presentation_id}. -/
def get_presentation (presentation_id : Nat) (db : DB) : Response × DB :=
  match db.presentations.find? (fun p => p.id == presentation_id) with
  | none => (Response.notFound "Presentation not found", db)
  | some p => (Response.ok 200 (presentationToJson p), db)

/-- POST /presentations: the storage engine rejects an `event_id` that
references no `Event` row. -/
def create_presentation (now : Nat) (presentation : PresentationCreate)
    (db : DB) : Except StorageError (Response × DB) :=
  if db.events.any (fun e => e.id == presentation.event_id) then
    let row : PresentationRow :=
      ⟨db.nextPresentationId, now, presentation.event_id,
        presentation.date_start, presentation.date_end, presentation.flyer⟩
    Except.ok (Response.ok 201 (presentationToJson row),
      { db with
          presentations := db.presentations ++ [row]
          nextPresentationId := db.nextPresentationId + 1 })
  else
    Except.error (StorageError.fkViolation "Presentation" "event_id")

/-- GET /tickets. -/
def list_tickets (db : DB) : Response × DB :=
  (Response.ok 200 (Json.arr (db.tickets.map ticketToJson)), db)

/-- POST /tickets: both foreign keys are checked by the storage engine. -/
def create_ticket (now : Nat) (ticket : TicketCreate) (db : DB) :
    Except StorageError (Response × DB) :=
  if db.users.any (fun u => u.id == ticket.user_id) then
    if db.presentations.any (fun p => p.id == ticket.presentation_id) then
      let row : TicketRow :=
        ⟨db.nextTicketId, now, ticket.user_id, ticket.presentation_id⟩
      Except.ok (Response.ok 201 (ticketToJson row),
        { db with
            tickets := db.tickets ++ [row]
            nextTicketId := db.nextTicketId + 1 })
    else
      Except.error (StorageError.fkViolation "Ticket" "presentation_id")
  else
    Except.error (StorageError.fkViolation "Ticket" "user_id")

/-- GET /comments: every comment with its user and presentation
eager-loaded (`joinedload`), serialized through `CommentRead`. -/
def list_comments (db : DB) : Response × DB :=
  (Response.ok 200 (Json.arr (db.comments.map (commentToJson db))), db)

/-- POST /comments: both foreign keys are optional; a present foreign key
is checked by the storage engine.  The response is the stored row through
`CommentRead`, with the related rows resolved against the post-commit
database. -/
def create_comment (now : Nat) (comment : CommentCreate) (db : DB) :
    Except StorageError (Response × DB) :=
  if (match comment.presentation_id with
      | none => true
      | some pid => db.presentations.any (fun p => p.id == pid)) then
    if (match comment.user_id with
        | none => true
        | some uid => db.users.any (fun u => u.id == uid)) then
      let row : CommentRow :=
        ⟨db.nextCommentId, now, comment.message, comment.presentation_id,
          comment.user_id⟩
      let db' : DB :=
        { db with
            comments := db.comments ++ [row]
            nextCommentId := db.nextCommentId + 1 }
      Except.ok (Response.ok 201 (commentToJson db' row), db')
    else
      Except.error (StorageError.fkViolation "Comment" "user_id")
  else
    Except.error (StorageError.fkViolation "Comment" "presentation_id")

/-! ## Session scoping (`get_db`) -/

/-- A storage session handed to a handler: a view of the database and the
flag `close()` sets. -/
structure DBSession where
  db : DB
  closed : Bool
deriving Repr

/-- The outcome a handler body can finish with: a value, or a storage
failure that escapes it. -/
inductive Outcome (α : Type) where
  | success : α → Outcome α
  | failure : StorageError → Outcome α
deriving Repr

/-- The `get_db` dependency: open a fresh session (`db = SessionLocal()`),
run the request body with it (`yield db`), and in the `finally` block mark
the session closed (`db.close()`), whatever the body produced. -/
def get_db {α : Type} (body : DBSession → α × DBSession) (db : DB) :
    α × DBSession :=
  let s : DBSession := ⟨db, false⟩
  let r := body s
  (r.1, { r.2 with closed := true })

/-! ## The endpoint surface, as one dispatch per method kind -/

/-- One POST request to some create endpoint, with its payload. -/
inductive CreateCall where
  | role : RoleCreate → CreateCall
  | user : UserCreate → CreateCall
  | gender : MusicGenderCreate → CreateCall
  | artist : ArtistCreate → CreateCall
  | event : EventCreate → CreateCall
  | presentation : PresentationCreate → CreateCall
  | ticket : TicketCreate → CreateCall
  | comment : CommentCreate → CreateCall

/-- Dispatch a POST request to its handler. -/
def runCreate (now : Nat) : CreateCall → DB → Except StorageError (Response × DB)
  | .role p => create_role now p
  | .user p => create_user now p
  | .gender p => create_music_gender now p
  | .artist p => create_artist now p
  | .event p => create_event now p
  | .presentation p => create_presentation now p
  | .ticket p => create_ticket now p
  | .comment p => create_comment now p

/-- One GET request to any endpoint of the application (the application
has no PUT, PATCH or DELETE routes at all). -/
inductive ReadCall where
  | ping : ReadCall
  | hello : ReadCall
  | roles : ReadCall
  | users : ReadCall
  | userById : Nat → ReadCall
  | genders : ReadCall
  | artists : ReadCall
  | artistById : Nat → ReadCall
  | events : ReadCall
  | eventById : Nat → ReadCall
  | presentations : ReadCall
  | presentationById : Nat → ReadCall
  | tickets : ReadCall
  | comments : ReadCall

/-- Dispatch a GET request to its handler. -/
def runRead : ReadCall → DB → Response × DB
  | .ping, db => (ping, db)
  | .hello, db => (hello, db)
  | .roles, db => list_roles db
  | .users, db => list_users db
  | .userById i, db => get_user i db
  | .genders, db => list_music_genders db
  | .artists, db => list_artists db
  | .artistById i, db => get_artist i db
  | .events, db => list_events db
  | .eventById i, db => get_event i db
  | .presentations, db => list_presentations db
  | .presentationById i, db => get_presentation i db
  | .tickets, db => list_tickets db
  | .comments, db => list_comments db

/-- The list endpoint of the entity a create call targets. -/
def entityList : CreateCall → DB → Response × DB
  | .role _ => list_roles
  | .user _ => list_users
  | .gender _ => list_music_genders
  | .artist _ => list_artists
  | .event _ => list_events
  | .presentation _ => list_presentations
  | .ticket _ => list_tickets
  | .comment _ => list_comments

/-- Every row present before is still present, unchanged and in place,
in every table: each old table is an initial segment of the new one. -/
def rowsPreserved (db db' : DB) : Prop :=
  (∃ t, db'.roles = db.roles ++ t) ∧
  (∃ t, db'.users = db.users ++ t) ∧
  (∃ t, db'.genders = db.genders ++ t) ∧
  (∃ t, db'.artists = db.artists ++ t) ∧
  (∃ t, db'.artistGenders = db.artistGenders ++ t) ∧
  (∃ t, db'.events = db.events ++ t) ∧
  (∃ t, db'.presentations = db.presentations ++ t) ∧
  (∃ t, db'.presentationArtists = db.presentationArtists ++ t) ∧
  (∃ t, db'.tickets = db.tickets ++ t) ∧
  (∃ t, db'.comments = db.comments ++ t)

/-- The number of rows in the whole database. -/
def totalRows (db : DB) : Nat :=
  db.roles.length + db.users.length + db.genders.length +
  db.artists.length + db.artistGenders.length + db.events.length +
  db.presentations.length + db.presentationArtists.length +
  db.tickets.length + db.comments.length

/-- The number of rows in the table a create call targets. -/
def ownCount : CreateCall → DB → Nat
  | .role _, db => db.roles.length
  | .user _, db => db.users.length
  | .gender _, db => db.genders.length
  | .artist _, db => db.artists.length
  | .event _, db => db.events.length
  | .presentation _, db => db.presentations.length
  | .ticket _, db => db.tickets.length
  | .comment _, db => db.comments.length

/-- The creation timestamps stored in the table a create call targets. -/
def ownCreatedAts : CreateCall → DB → List Nat
  | .role _, db => db.roles.map RoleRow.created_at
  | .user _, db => db.users.map UserRow.created_at
  | .gender _, db => db.genders.map MusicGenderRow.created_at
  | .artist _, db => db.artists.map ArtistRow.created_at
  | .event _, db => db.events.map EventRow.created_at
  | .presentation _, db => db.presentations.map PresentationRow.created_at
  | .ticket _, db => db.tickets.map TicketRow.created_at
  | .comment _, db => db.comments.map CommentRow.created_at

/-- Two `User` rows that agree on everything except possibly the stored
password. -/
def userEqExceptPassword (u v : UserRow) : Prop :=
  u.id = v.id ∧ u.created_at = v.created_at ∧ u.name = v.name ∧
  u.email = v.email ∧ u.role_id = v.role_id ∧ u.photo = v.photo

/-! ## Concrete states used to instantiate the theorems -/

/-- The row POST /roles `{name: "Admin"}` stores in an empty database at
clock 0. -/
def adminRole : RoleRow := ⟨1, 0, "Admin"⟩

/-- The database after that first create. -/
def dbAdmin : DB := { emptyDB with roles := [adminRole], nextRoleId := 2 }

/-! ## Claim theorems -/

/-- Claim C8: every request runs its body against a fresh storage session
scoped to that request (`get_db` hands the body the session `⟨db, false⟩`
it has just opened), and on completion the session is always closed —
the `finally` step applies whether the body's outcome is a success or a
failure, so a session is never left open after a request finishes. -/
theorem session_always_closed :
    ∀ (α : Type) (body : DBSession → Outcome α × DBSession) (db : DB),
      get_db body db
        = ((body ⟨db, false⟩).1, { (body ⟨db, false⟩).2 with closed := true })
      ∧ ((get_db body db).2).closed = true := by
  intro α body db
  exact ⟨rfl, rfl⟩

/-- Claim C3: for the four entities with a get-by-id endpoint (User,
Artist, Event, Presentation), the handler never changes the database and
its result is total: either the identifier exists and the stored row is
returned serialized, or the result is the 404 response with that entity's
static message.  No third outcome (in particular no storage-layer
exception) is possible. -/
theorem get_by_id_total :
    ∀ (i : Nat) (db : DB),
      ((get_user i db).2 = db ∧
        ((∃ u, db.users.find? (fun x => x.id == i) = some u ∧
            (get_user i db).1 = Response.ok 200 (userToJson u)) ∨
          (db.users.find? (fun x => x.id == i) = none ∧
            (get_user i db).1 = Response.notFound "User not found"))) ∧
      ((get_artist i db).2 = db ∧
        ((∃ a, db.artists.find? (fun x => x.id == i) = some a ∧
            (get_artist i db).1 = Response.ok 200 (artistToJson a)) ∨
          (db.artists.find? (fun x => x.id == i) = none ∧
            (get_artist i db).1 = Response.notFound "Artist not found"))) ∧
      ((get_event i db).2 = db ∧
        ((∃ e, db.events.find? (fun x => x.id == i) = some e ∧
            (get_event i db).1 = Response.ok 200 (eventToJson e)) ∨
          (db.events.find? (fun x => x.id == i) = none ∧
            (get_event i db).1 = Response.notFound "Event not found"))) ∧
      ((get_presentation i db).2 = db ∧
        ((∃ p, db.presentations.find? (fun x => x.id == i) = some p ∧
            (get_presentation i db).1 = Response.ok 200 (presentationToJson p)) ∨
          (db.presentations.find? (fun x => x.id == i) = none ∧
            (get_presentation i db).1 = Response.notFound "Presentation not found"))) := by
  intro i db
  refine ⟨⟨?_, ?_⟩, ⟨?_, ?_⟩, ⟨?_, ?_⟩, ⟨?_, ?_⟩⟩
  · cases h : db.users.find? (fun x => x.id == i) <;> simp [get_user, h]
  · cases h : db.users.find? (fun x => x.id == i)
    · exact Or.inr ⟨rfl, by simp [get_user, h]⟩
    · exact Or.inl ⟨_, rfl, by simp [get_user, h]⟩
  · cases h : db.artists.find? (fun x => x.id == i) <;> simp [get_artist, h]
  · cases h : db.artists.find? (fun x => x.id == i)
    · exact Or.inr ⟨rfl, by simp [get_artist, h]⟩
    · exact Or.inl ⟨_, rfl, by simp [get_artist, h]⟩
  · cases h : db.events.find? (fun x => x.id == i) <;> simp [get_event, h]
  · cases h : db.events.find? (fun x => x.id == i)
    · exact Or.inr ⟨rfl, by simp [get_event, h]⟩
    · exact Or.inl ⟨_, rfl, by simp [get_event, h]⟩
  · cases h : db.presentations.find? (fun x => x.id == i) <;>
      simp [get_presentation, h]
  · cases h : db.presentations.find? (fun x => x.id == i)
    · exact Or.inr ⟨rfl, by simp [get_presentation, h]⟩
    · exact Or.inl ⟨_, rfl, by simp [get_presentation, h]⟩

/-- Claim C4: POST /comments with both `presentation_id` and `user_id`
omitted always succeeds with 201 (no foreign key is there to check), and
the stored row round-trips through GET /comments as the last element of
the list, with both the embedded user and the embedded presentation
rendered as JSON `null`. -/
theorem orphan_comment_round_trip :
    ∀ (now : Nat) (msg : String) (db : DB),
      create_comment now ⟨msg, none, none⟩ db
        = Except.ok (Response.ok 201 (Json.obj
            [("id", Json.num db.nextCommentId), ("message", Json.str msg),
             ("created_at", Json.num now), ("user", Json.null),
             ("presentation", Json.null)]),
          { db with
              comments := db.comments ++ [⟨db.nextCommentId, now, msg, none, none⟩]
              nextCommentId := db.nextCommentId + 1 })
      ∧ (list_comments { db with
            comments := db.comments ++ [⟨db.nextCommentId, now, msg, none, none⟩]
            nextCommentId := db.nextCommentId + 1 }).1
          = Response.ok 200 (Json.arr
              ((db.comments.map (commentToJson { db with
                  comments := db.comments ++ [⟨db.nextCommentId, now, msg, none, none⟩]
                  nextCommentId := db.nextCommentId + 1 })) ++
                [Json.obj [("id", Json.num db.nextCommentId),
                  ("message", Json.str msg), ("created_at", Json.num now),
                  ("user", Json.null), ("presentation", Json.null)]])) := by
  intro now msg db
  constructor
  · rfl
  · simp [list_comments, List.map_append, commentToJson]

/-- The database after POST /comments `{message: "hi"}` on an empty
database at clock 0. -/
def dbComment : DB :=
  { emptyDB with comments := [⟨1, 0, "hi", none, none⟩], nextCommentId := 2 }

/-- Claim C10: the Comment read contract is asymmetric to its create
contract.  Every `CommentRead` serialization — the body of a POST
/comments response and every element of a GET /comments response — has
exactly the fields id, message, created_at, user, presentation, and in
particular never the raw `presentation_id` / `user_id` foreign keys,
even though both of those are fields of the create contract. -/
theorem comment_read_contract_shape :
    (∀ (db : DB) (c : CommentRow),
        (commentToJson db c).keys
          = ["id", "message", "created_at", "user", "presentation"] ∧
        "presentation_id" ∉ (commentToJson db c).keys ∧
        "user_id" ∉ (commentToJson db c).keys) ∧
    ("presentation_id" ∈ commentCreateFields ∧
      "user_id" ∈ commentCreateFields) ∧
    (∀ now (p : CommentCreate) db resp db',
        create_comment now p db = Except.ok (resp, db') →
        ∃ body, resp = Response.ok 201 body ∧
          body.keys = ["id", "message", "created_at", "user", "presentation"]) ∧
    (∀ db : DB, ∃ bodies,
        (list_comments db).1 = Response.ok 200 (Json.arr bodies) ∧
        ∀ b ∈ bodies,
          b.keys = ["id", "message", "created_at", "user", "presentation"]) := by
  have hkeys : ∀ (db : DB) (c : CommentRow),
      (commentToJson db c).keys
        = ["id", "message", "created_at", "user", "presentation"] :=
    fun _ _ => rfl
  refine ⟨fun db c => ⟨hkeys db c, ?_, ?_⟩, ⟨by decide, by decide⟩, ?_, ?_⟩
  · rw [hkeys db c]; decide
  · rw [hkeys db c]; decide
  · intro now p db resp db' h
    rw [create_comment] at h
    split at h
    · split at h
      · simp only [Except.ok.injEq, Prod.mk.injEq] at h
        obtain ⟨hr, _⟩ := h
        exact ⟨_, hr.symm, hkeys _ _⟩
      · simp at h
    · simp at h
  · intro db
    refine ⟨db.comments.map (commentToJson db), rfl, ?_⟩
    intro b hb
    obtain ⟨c, _, hc⟩ := List.mem_map.mp hb
    rw [← hc]
    exact hkeys db c

/-- Claim C6: POSTing a role whose name equals an existing `Role.name` is
rejected by the storage engine's uniqueness constraint — the handler
surfaces the storage error and no second row is created — and POST
/genders behaves identically with respect to `Music_Gender.name`. -/
theorem unique_name_rejected :
    ∀ (now : Nat) (name : String) (db : DB),
      (db.roles.any (fun r => r.name == name) = true →
        create_role now ⟨name⟩ db
          = Except.error (StorageError.uniqueViolation "Role" "name")) ∧
      (db.genders.any (fun g => g.name == name) = true →
        create_music_gender now ⟨name⟩ db
          = Except.error (StorageError.uniqueViolation "Music_Gender" "name")) := by
  intro now name db
  constructor
  · intro h
    rw [create_role]
    simp only [h]
    rfl
  · intro h
    rw [create_music_gender]
    simp only [h]
    rfl

/-- Witness for C6: in the state holding the role `Admin`, a second POST
/roles `{name: "Admin"}` surfaces the uniqueness violation. -/
theorem unique_name_rejected_witness :
    create_role 3 ⟨"Admin"⟩ dbAdmin
      = Except.error (StorageError.uniqueViolation "Role" "name") :=
  (unique_name_rejected 3 "Admin" dbAdmin).1 (by decide)

/-- Counterexample to C1 as stated: POST /roles `{name: "Admin"}` on the
empty database at clock 5 succeeds with 201 and stores a row whose
creation timestamp is 5, but the response body has only the fields
`name` and `id` — the creation timestamp is not in the response, so the
response fields do not equal the input fields plus id plus a creation
timestamp. -/
theorem create_response_missing_timestamp :
    create_role 5 ⟨"Admin"⟩ emptyDB
      = Except.ok (Response.ok 201 (Json.obj
          [("name", Json.str "Admin"), ("id", Json.num 1)]),
        { emptyDB with roles := [⟨1, 5, "Admin"⟩], nextRoleId := 2 })
    ∧ "created_at" ∉ (Json.obj
        [("name", Json.str "Admin"), ("id", Json.num 1)]).keys
    ∧ ({ emptyDB with roles := [⟨1, 5, "Admin"⟩], nextRoleId := 2 } : DB).roles.map
        RoleRow.created_at = [5] :=
  ⟨rfl, by decide, rfl⟩

/-- Claim C1 (amended): POSTing a payload that passes contract validation
and violates no storage constraint returns 201 with a response body whose
fields equal the supplied input fields plus a non-null server-assigned id
(`id` is always rendered as a JSON number, never `null`) — but without
the creation timestamp, which is stored and not returned; additionally
the User response omits the supplied password, and the Comment response
contains id, message, created_at and the embedded user/presentation
objects instead of echoing the foreign-key inputs. -/
theorem create_response_fields :
    (∀ n : Int, Json.num n ≠ Json.null) ∧
    (∀ now (p : RoleCreate) db resp db',
        create_role now p db = Except.ok (resp, db') →
        resp = Response.ok 201 (Json.obj
          [("name", Json.str p.name), ("id", Json.num db.nextRoleId)])) ∧
    (∀ now (p : UserCreate) db resp db',
        create_user now p db = Except.ok (resp, db') →
        resp = Response.ok 201 (Json.obj
          [("name", Json.str p.name), ("email", Json.str p.email),
           ("photo", optStrJson p.photo), ("role_id", Json.num p.role_id),
           ("id", Json.num db.nextUserId)])) ∧
    (∀ now (p : MusicGenderCreate) db resp db',
        create_music_gender now p db = Except.ok (resp, db') →
        resp = Response.ok 201 (Json.obj
          [("name", Json.str p.name), ("id", Json.num db.nextGenderId)])) ∧
    (∀ now (p : ArtistCreate) db resp db',
        create_artist now p db = Except.ok (resp, db') →
        resp = Response.ok 201 (Json.obj
          [("name", Json.str p.name), ("photo", Json.str p.photo),
           ("id", Json.num db.nextArtistId)])) ∧
    (∀ now (p : EventCreate) db resp db',
        create_event now p db = Except.ok (resp, db') →
        resp = Response.ok 201 (Json.obj
          [("name", optStrJson p.name), ("logo", optStrJson p.logo),
           ("price", Json.num p.price), ("id", Json.num db.nextEventId)])) ∧
    (∀ now (p : PresentationCreate) db resp db',
        create_presentation now p db = Except.ok (resp, db') →
        resp = Response.ok 201 (Json.obj
          [("event_id", Json.num p.event_id),
           ("date_start", Json.num p.date_start),
           ("date_end", optNatJson p.date_end), ("flyer", Json.str p.flyer),
           ("id", Json.num db.nextPresentationId)])) ∧
    (∀ now (p : TicketCreate) db resp db',
        create_ticket now p db = Except.ok (resp, db') →
        resp = Response.ok 201 (Json.obj
          [("user_id", Json.num p.user_id),
           ("presentation_id", Json.num p.presentation_id),
           ("id", Json.num db.nextTicketId)])) ∧
    (∀ now (p : CommentCreate) db resp db',
        create_comment now p db = Except.ok (resp, db') →
        ∃ uJson pJson, resp = Response.ok 201 (Json.obj
          [("id", Json.num db.nextCommentId), ("message", Json.str p.message),
           ("created_at", Json.num now), ("user", uJson),
           ("presentation", pJson)])) := by
  refine ⟨fun n h => Json.noConfusion h, ?_, ?_, ?_, ?_, ?_, ?_, ?_, ?_⟩
  · intro now p db resp db' h
    rw [create_role] at h
    split at h
    · simp at h
    · simp only [Except.ok.injEq, Prod.mk.injEq] at h
      exact h.1.symm
  · intro now p db resp db' h
    rw [create_user] at h
    split at h
    · simp only [Except.ok.injEq, Prod.mk.injEq] at h
      exact h.1.symm
    · simp at h
  · intro now p db resp db' h
    rw [create_music_gender] at h
    split at h
    · simp at h
    · simp only [Except.ok.injEq, Prod.mk.injEq] at h
      exact h.1.symm
  · intro now p db resp db' h
    rw [create_artist] at h
    simp only [Except.ok.injEq, Prod.mk.injEq] at h
    exact h.1.symm
  · intro now p db resp db' h
    rw [create_event] at h
    simp only [Except.ok.injEq, Prod.mk.injEq] at h
    exact h.1.symm
  · intro now p db resp db' h
    rw [create_presentation] at h
    split at h
    · simp only [Except.ok.injEq, Prod.mk.injEq] at h
      exact h.1.symm
    · simp at h
  · intro now p db resp db' h
    rw [create_ticket] at h
    split at h
    · split at h
      · simp only [Except.ok.injEq, Prod.mk.injEq] at h
        exact h.1.symm
      · simp at h
    · simp at h
  · intro now p db resp db' h
    rw [create_comment] at h
    split at h
    · split at h
      · simp only [Except.ok.injEq, Prod.mk.injEq] at h
        exact ⟨_, _, h.1.symm⟩
      · simp at h
    · simp at h

/-- Witness for C1 (amended): the first POST /roles `{name: "Admin"}` on
an empty database returns the body with exactly the input field plus
the generated id 1. -/
theorem create_response_fields_witness :
    Response.ok 201 (roleToJson adminRole)
      = Response.ok 201 (Json.obj
          [("name", Json.str "Admin"), ("id", Json.num 1)]) :=
  create_response_fields.2.1 0 ⟨"Admin"⟩ emptyDB
    (Response.ok 201 (roleToJson adminRole)) dbAdmin rfl

/-- Claim C2: every list endpoint returns exactly the rows of its table,
in storage order, each serialized through the same read contract its
create response uses, and it leaves the database unchanged — so repeated
GETs with no intervening writes return identical results.  The final
conjunct ties the two serializations together: after any successful
create, the new list response is the old rows' serializations followed by
exactly the body the create response carried. -/
theorem list_endpoints_exact :
    (∀ db : DB, list_roles db
        = (Response.ok 200 (Json.arr (db.roles.map roleToJson)), db)) ∧
    (∀ db : DB, list_users db
        = (Response.ok 200 (Json.arr (db.users.map userToJson)), db)) ∧
    (∀ db : DB, list_music_genders db
        = (Response.ok 200 (Json.arr (db.genders.map genderToJson)), db)) ∧
    (∀ db : DB, list_artists db
        = (Response.ok 200 (Json.arr (db.artists.map artistToJson)), db)) ∧
    (∀ db : DB, list_events db
        = (Response.ok 200 (Json.arr (db.events.map eventToJson)), db)) ∧
    (∀ db : DB, list_presentations db
        = (Response.ok 200 (Json.arr (db.presentations.map presentationToJson)), db)) ∧
    (∀ db : DB, list_tickets db
        = (Response.ok 200 (Json.arr (db.tickets.map ticketToJson)), db)) ∧
    (∀ db : DB, list_comments db
        = (Response.ok 200 (Json.arr (db.comments.map (commentToJson db))), db)) ∧
    (∀ now c db resp db', runCreate now c db = Except.ok (resp, db') →
        ∃ body rest, resp = Response.ok 201 body ∧
          (entityList c db').1 = Response.ok 200 (Json.arr (rest ++ [body]))) := by
  refine ⟨fun _ => rfl, fun _ => rfl, fun _ => rfl, fun _ => rfl, fun _ => rfl,
    fun _ => rfl, fun _ => rfl, fun _ => rfl, ?_⟩
  intro now c db resp db' h
  cases c
  case role p =>
    simp only [runCreate, create_role] at h
    split at h
    · simp at h
    · simp only [Except.ok.injEq, Prod.mk.injEq] at h
      obtain ⟨hr, hd⟩ := h
      subst hd
      exact ⟨roleToJson ⟨db.nextRoleId, now, p.name⟩, db.roles.map roleToJson,
        hr.symm, by simp [entityList, list_roles]⟩
  case user p =>
    simp only [runCreate, create_user] at h
    split at h
    · simp only [Except.ok.injEq, Prod.mk.injEq] at h
      obtain ⟨hr, hd⟩ := h
      subst hd
      exact ⟨userToJson ⟨db.nextUserId, now, p.name, p.email, p.password,
          p.role_id, p.photo⟩, db.users.map userToJson,
        hr.symm, by simp [entityList, list_users]⟩
    · simp at h
  case gender p =>
    simp only [runCreate, create_music_gender] at h
    split at h
    · simp at h
    · simp only [Except.ok.injEq, Prod.mk.injEq] at h
      obtain ⟨hr, hd⟩ := h
      subst hd
      exact ⟨genderToJson ⟨db.nextGenderId, now, p.name⟩,
        db.genders.map genderToJson,
        hr.symm, by simp [entityList, list_music_genders]⟩
  case artist p =>
    simp only [runCreate, create_artist] at h
    simp only [Except.ok.injEq, Prod.mk.injEq] at h
    obtain ⟨hr, hd⟩ := h
    subst hd
    exact ⟨artistToJson ⟨db.nextArtistId, now, p.name, p.photo⟩,
      db.artists.map artistToJson,
      hr.symm, by simp [entityList, list_artists]⟩
  case event p =>
    simp only [runCreate, create_event] at h
    simp only [Except.ok.injEq, Prod.mk.injEq] at h
    obtain ⟨hr, hd⟩ := h
    subst hd
    exact ⟨eventToJson ⟨db.nextEventId, now, p.name, p.logo, p.price⟩,
      db.events.map eventToJson,
      hr.symm, by simp [entityList, list_events]⟩
  case presentation p =>
    simp only [runCreate, create_presentation] at h
    split at h
    · simp only [Except.ok.injEq, Prod.mk.injEq] at h
      obtain ⟨hr, hd⟩ := h
      subst hd
      exact ⟨presentationToJson ⟨db.nextPresentationId, now, p.event_id,
          p.date_start, p.date_end, p.flyer⟩,
        db.presentations.map presentationToJson,
        hr.symm, by simp [entityList, list_presentations]⟩
    · simp at h
  case ticket p =>
    simp only [runCreate, create_ticket] at h
    split at h
    · split at h
      · simp only [Except.ok.injEq, Prod.mk.injEq] at h
        obtain ⟨hr, hd⟩ := h
        subst hd
        exact ⟨ticketToJson ⟨db.nextTicketId, now, p.user_id, p.presentation_id⟩,
          db.tickets.map ticketToJson,
          hr.symm, by simp [entityList, list_tickets]⟩
      · simp at h
    · simp at h
  case comment p =>
    simp only [runCreate, create_comment] at h
    split at h
    · split at h
      · simp only [Except.ok.injEq, Prod.mk.injEq] at h
        obtain ⟨hr, hd⟩ := h
        subst hd
        refine ⟨commentToJson
            { db with
                comments := db.comments ++
                  [⟨db.nextCommentId, now, p.message, p.presentation_id, p.user_id⟩]
                nextCommentId := db.nextCommentId + 1 }
            ⟨db.nextCommentId, now, p.message, p.presentation_id, p.user_id⟩,
          db.comments.map (commentToJson
            { db with
                comments := db.comments ++
                  [⟨db.nextCommentId, now, p.message, p.presentation_id, p.user_id⟩]
                nextCommentId := db.nextCommentId + 1 }),
          hr.symm, by simp [entityList, list_comments]⟩
      · simp at h
    · simp at h

/-- Witness for C2: the first POST /roles `{name: "Admin"}` on an empty
database yields a list response whose single element is exactly the
create response body. -/
theorem list_endpoints_exact_witness :
    ∃ body rest, Response.ok 201 (roleToJson adminRole) = Response.ok 201 body ∧
      (entityList (CreateCall.role ⟨"Admin"⟩) dbAdmin).1
        = Response.ok 200 (Json.arr (rest ++ [body])) :=
  list_endpoints_exact.2.2.2.2.2.2.2.2 0 (CreateCall.role ⟨"Admin"⟩) emptyDB
    (Response.ok 201 (roleToJson adminRole)) dbAdmin rfl

/-- Claim C5: no create contract has an `id` or `created_at` field, so a
client cannot supply either; and every successful create appends to its
entity's stored creation timestamps exactly the server clock value at
handling time — the persisted row's `created_at` is the server's `now`. -/
theorem create_contracts_and_timestamp :
    (("id" ∉ roleCreateFields ∧ "created_at" ∉ roleCreateFields) ∧
     ("id" ∉ userCreateFields ∧ "created_at" ∉ userCreateFields) ∧
     ("id" ∉ musicGenderCreateFields ∧ "created_at" ∉ musicGenderCreateFields) ∧
     ("id" ∉ artistCreateFields ∧ "created_at" ∉ artistCreateFields) ∧
     ("id" ∉ eventCreateFields ∧ "created_at" ∉ eventCreateFields) ∧
     ("id" ∉ presentationCreateFields ∧ "created_at" ∉ presentationCreateFields) ∧
     ("id" ∉ ticketCreateFields ∧ "created_at" ∉ ticketCreateFields) ∧
     ("id" ∉ commentCreateFields ∧ "created_at" ∉ commentCreateFields)) ∧
    (∀ now c db resp db', runCreate now c db = Except.ok (resp, db') →
        ownCreatedAts c db' = ownCreatedAts c db ++ [now]) := by
  constructor
  · exact ⟨by decide, by decide, by decide, by decide, by decide, by decide,
      by decide, by decide⟩
  · intro now c db resp db' h
    cases c
    case role p =>
      simp only [runCreate, create_role] at h
      split at h
      · simp at h
      · simp only [Except.ok.injEq, Prod.mk.injEq] at h
        obtain ⟨-, hd⟩ := h
        subst hd
        simp [ownCreatedAts]
    case user p =>
      simp only [runCreate, create_user] at h
      split at h
      · simp only [Except.ok.injEq, Prod.mk.injEq] at h
        obtain ⟨-, hd⟩ := h
        subst hd
        simp [ownCreatedAts]
      · simp at h
    case gender p =>
      simp only [runCreate, create_music_gender] at h
      split at h
      · simp at h
      · simp only [Except.ok.injEq, Prod.mk.injEq] at h
        obtain ⟨-, hd⟩ := h
        subst hd
        simp [ownCreatedAts]
    case artist p =>
      simp only [runCreate, create_artist] at h
      simp only [Except.ok.injEq, Prod.mk.injEq] at h
      obtain ⟨-, hd⟩ := h
      subst hd
      simp [ownCreatedAts]
    case event p =>
      simp only [runCreate, create_event] at h
      simp only [Except.ok.injEq, Prod.mk.injEq] at h
      obtain ⟨-, hd⟩ := h
      subst hd
      simp [ownCreatedAts]
    case presentation p =>
      simp only [runCreate, create_presentation] at h
      split at h
      · simp only [Except.ok.injEq, Prod.mk.injEq] at h
        obtain ⟨-, hd⟩ := h
        subst hd
        simp [ownCreatedAts]
      · simp at h
    case ticket p =>
      simp only [runCreate, create_ticket] at h
      split at h
      · split at h
        · simp only [Except.ok.injEq, Prod.mk.injEq] at h
          obtain ⟨-, hd⟩ := h
          subst hd
          simp [ownCreatedAts]
        · simp at h
      · simp at h
    case comment p =>
      simp only [runCreate, create_comment] at h
      split at h
      · split at h
        · simp only [Except.ok.injEq, Prod.mk.injEq] at h
          obtain ⟨-, hd⟩ := h
          subst hd
          simp [ownCreatedAts]
        · simp at h
      · simp at h

/-- Witness for C5: the first POST /roles `{name: "Admin"}` at clock 0
stamps the stored timestamps `[] ++ [0]`. -/
theorem create_contracts_and_timestamp_witness :
    ownCreatedAts (CreateCall.role ⟨"Admin"⟩) dbAdmin
      = ownCreatedAts (CreateCall.role ⟨"Admin"⟩) emptyDB ++ [0] :=
  create_contracts_and_timestamp.2 0 (CreateCall.role ⟨"Admin"⟩) emptyDB
    (Response.ok 201 (roleToJson adminRole)) dbAdmin rfl

/-- Claim C7: every successful create is a single insert-and-commit: it
leaves every previously existing row of every table in place and
unchanged, adds exactly one row to the whole database, and that row is in
the created entity's own table.  Every GET endpoint of the application
returns the database unchanged, and the application has no other routes —
no endpoint updates or deletes any row. -/
theorem create_frame_and_no_mutation :
    (∀ now c db resp db', runCreate now c db = Except.ok (resp, db') →
        rowsPreserved db db' ∧ totalRows db' = totalRows db + 1 ∧
        ownCount c db' = ownCount c db + 1) ∧
    (∀ (c : ReadCall) (db : DB), (runRead c db).2 = db) := by
  constructor
  · intro now c db resp db' h
    cases c
    case role p =>
      simp only [runCreate, create_role] at h
      split at h
      · simp at h
      · simp only [Except.ok.injEq, Prod.mk.injEq] at h
        obtain ⟨-, hd⟩ := h
        subst hd
        refine ⟨⟨?_, ?_, ?_, ?_, ?_, ?_, ?_, ?_, ?_, ?_⟩, ?_, ?_⟩ <;>
          first
          | exact ⟨_, rfl⟩
          | (refine ⟨[], ?_⟩; simp)
          | (simp only [totalRows, ownCount, List.length_append,
              List.length_cons, List.length_nil]; try omega)
    case user p =>
      simp only [runCreate, create_user] at h
      split at h
      · simp only [Except.ok.injEq, Prod.mk.injEq] at h
        obtain ⟨-, hd⟩ := h
        subst hd
        refine ⟨⟨?_, ?_, ?_, ?_, ?_, ?_, ?_, ?_, ?_, ?_⟩, ?_, ?_⟩ <;>
          first
          | exact ⟨_, rfl⟩
          | (refine ⟨[], ?_⟩; simp)
          | (simp only [totalRows, ownCount, List.length_append,
              List.length_cons, List.length_nil]; try omega)
      · simp at h
    case gender p =>
      simp only [runCreate, create_music_gender] at h
      split at h
      · simp at h
      · simp only [Except.ok.injEq, Prod.mk.injEq] at h
        obtain ⟨-, hd⟩ := h
        subst hd
        refine ⟨⟨?_, ?_, ?_, ?_, ?_, ?_, ?_, ?_, ?_, ?_⟩, ?_, ?_⟩ <;>
          first
          | exact ⟨_, rfl⟩
          | (refine ⟨[], ?_⟩; simp)
          | (simp only [totalRows, ownCount, List.length_append,
              List.length_cons, List.length_nil]; try omega)
    case artist p =>
      simp only [runCreate, create_artist] at h
      simp only [Except.ok.injEq, Prod.mk.injEq] at h
      obtain ⟨-, hd⟩ := h
      subst hd
      refine ⟨⟨?_, ?_, ?_, ?_, ?_, ?_, ?_, ?_, ?_, ?_⟩, ?_, ?_⟩ <;>
        first
        | exact ⟨_, rfl⟩
        | (refine ⟨[], ?_⟩; simp)
        | (simp only [totalRows, ownCount, List.length_append,
            List.length_cons, List.length_nil]; try omega)
    case event p =>
      simp only [runCreate, create_event] at h
      simp only [Except.ok.injEq, Prod.mk.injEq] at h
      obtain ⟨-, hd⟩ := h
      subst hd
      refine ⟨⟨?_, ?_, ?_, ?_, ?_, ?_, ?_, ?_, ?_, ?_⟩, ?_, ?_⟩ <;>
        first
        | exact ⟨_, rfl⟩
        | (refine ⟨[], ?_⟩; simp)
        | (simp only [totalRows, ownCount, List.length_append,
            List.length_cons, List.length_nil]; try omega)
    case presentation p =>
      simp only [runCreate, create_presentation] at h
      split at h
      · simp only [Except.ok.injEq, Prod.mk.injEq] at h
        obtain ⟨-, hd⟩ := h
        subst hd
        refine ⟨⟨?_, ?_, ?_, ?_, ?_, ?_, ?_, ?_, ?_, ?_⟩, ?_, ?_⟩ <;>
          first
          | exact ⟨_, rfl⟩
          | (refine ⟨[], ?_⟩; simp)
          | (simp only [totalRows, ownCount, List.length_append,
              List.length_cons, List.length_nil]; try omega)
      · simp at h
    case ticket p =>
      simp only [runCreate, create_ticket] at h
      split at h
      · split at h
        · simp only [Except.ok.injEq, Prod.mk.injEq] at h
          obtain ⟨-, hd⟩ := h
          subst hd
          refine ⟨⟨?_, ?_, ?_, ?_, ?_, ?_, ?_, ?_, ?_, ?_⟩, ?_, ?_⟩ <;>
            first
            | exact ⟨_, rfl⟩
            | (refine ⟨[], ?_⟩; simp)
            | (simp only [totalRows, ownCount, List.length_append,
                List.length_cons, List.length_nil]; try omega)
        · simp at h
      · simp at h
    case comment p =>
      simp only [runCreate, create_comment] at h
      split at h
      · split at h
        · simp only [Except.ok.injEq, Prod.mk.injEq] at h
          obtain ⟨-, hd⟩ := h
          subst hd
          refine ⟨⟨?_, ?_, ?_, ?_, ?_, ?_, ?_, ?_, ?_, ?_⟩, ?_, ?_⟩ <;>
            first
            | exact ⟨_, rfl⟩
            | (refine ⟨[], ?_⟩; simp)
            | (simp only [totalRows, ownCount, List.length_append,
                List.length_cons, List.length_nil]; try omega)
        · simp at h
      · simp at h
  · intro c db
    have hu : ∀ i, (get_user i db).2 = db := by
      intro i
      cases h : db.users.find? (fun u => u.id == i) <;> simp [get_user, h]
    have ha : ∀ i, (get_artist i db).2 = db := by
      intro i
      cases h : db.artists.find? (fun a => a.id == i) <;> simp [get_artist, h]
    have he : ∀ i, (get_event i db).2 = db := by
      intro i
      cases h : db.events.find? (fun e => e.id == i) <;> simp [get_event, h]
    have hp : ∀ i, (get_presentation i db).2 = db := by
      intro i
      cases h : db.presentations.find? (fun q => q.id == i) <;>
        simp [get_presentation, h]
    cases c <;> first | rfl | apply hu | apply ha | apply he | apply hp

/-- Witness for C7: the first POST /roles `{name: "Admin"}` preserves the
(empty) prior contents of every table, grows the database by exactly one
row, and that row is in the `Role` table. -/
theorem create_frame_and_no_mutation_witness :
    rowsPreserved emptyDB dbAdmin ∧
      totalRows dbAdmin = totalRows emptyDB + 1 ∧
      ownCount (CreateCall.role ⟨"Admin"⟩) dbAdmin
        = ownCount (CreateCall.role ⟨"Admin"⟩) emptyDB + 1 :=
  create_frame_and_no_mutation.1 0 (CreateCall.role ⟨"Admin"⟩) emptyDB
    (Response.ok 201 (roleToJson adminRole)) dbAdmin rfl

/-- `UserRead` serialization does not look at the password: two rows that
agree on everything else serialize identically. -/
lemma userToJson_congr {u v : UserRow} (h : userEqExceptPassword u v) :
    userToJson u = userToJson v := by
  obtain ⟨h1, -, h3, h4, h5, h6⟩ := h
  simp [userToJson, h1, h3, h4, h5, h6]

/-- Pointwise password-blind serialization of a whole table. -/
lemma map_userToJson_congr {l₁ l₂ : List UserRow}
    (h : List.Forall₂ userEqExceptPassword l₁ l₂) :
    l₁.map userToJson = l₂.map userToJson := by
  induction h with
  | nil => rfl
  | cons hR _ ih => simp [userToJson_congr hR, ih]

/-- Primary-key lookup relates password-blind tables pointwise: both miss,
or both hit rows equal except for the password. -/
lemma find?_user_congr {l₁ l₂ : List UserRow} (i : Nat)
    (h : List.Forall₂ userEqExceptPassword l₁ l₂) :
    Option.Rel userEqExceptPassword (l₁.find? (fun u => u.id == i))
      (l₂.find? (fun u => u.id == i)) := by
  induction h with
  | nil => exact Option.Rel.none
  | @cons a b t₁ t₂ hR hT ih =>
      have hid : (b.id == i) = (a.id == i) := by rw [hR.1]
      cases hc : (a.id == i) with
      | true =>
          simp only [List.find?, hid, hc]
          exact Option.Rel.some hR
      | false =>
          simp only [List.find?, hid, hc]
          exact ih

/-- Claim C9: no user-facing response ever contains a password.  The
`UserRead` contract has no password field, and for any two stored states
whose user tables differ only in password values (everything else equal),
the responses of GET /users, GET /users/{id} and POST /users are
identical. -/
theorem password_never_serialized :
    (∀ u : UserRow, "password" ∉ (userToJson u).keys) ∧
    ∀ (db₁ : DB) (us₂ : List UserRow),
      List.Forall₂ userEqExceptPassword db₁.users us₂ →
      ((list_users db₁).1 = (list_users { db₁ with users := us₂ }).1 ∧
        (∀ i, (get_user i db₁).1 = (get_user i { db₁ with users := us₂ }).1) ∧
        (∀ now p, (create_user now p db₁).map Prod.fst
            = (create_user now p { db₁ with users := us₂ }).map Prod.fst)) := by
  constructor
  · intro u
    have hk : (userToJson u).keys = ["name", "email", "photo", "role_id", "id"] :=
      rfl
    rw [hk]
    decide
  · intro db₁ us₂ hrel
    refine ⟨?_, ?_, ?_⟩
    · simp only [list_users]
      rw [map_userToJson_congr hrel]
    · intro i
      have h := find?_user_congr i hrel
      revert h
      cases h1 : db₁.users.find? (fun u => u.id == i) with
      | none =>
        cases h2 : us₂.find? (fun u => u.id == i) with
        | none =>
          intro _
          simp [get_user, h1, h2]
        | some v =>
          intro h
          exact absurd h (by intro hcon; cases hcon)
      | some u =>
        cases h2 : us₂.find? (fun u => u.id == i) with
        | none =>
          intro h
          exact absurd h (by intro hcon; cases hcon)
        | some v =>
          intro h
          have huv : userEqExceptPassword u v := by cases h; assumption
          simp [get_user, h1, h2, userToJson_congr huv]
    · intro now p
      by_cases hc : (db₁.roles.any (fun r => r.id == p.role_id)) = true
      · simp [create_user, hc, Except.map]
      · simp [create_user, hc, Except.map]

/-- A user row with password `x`, and the same row with password `y`. -/
def userRowX : UserRow := ⟨1, 1, "A", "a@b.com", "x", 1, none⟩

/-- The same stored user except for the password value. -/
def userRowY : UserRow := ⟨1, 1, "A", "a@b.com", "y", 1, none⟩

/-- A database holding the role `Admin` and the user with password `x`. -/
def dbUserX : DB := { dbAdmin with users := [userRowX], nextUserId := 2 }

/-- Witness for C9: swapping the stored password `x` for `y` leaves the
GET /users response identical. -/
theorem password_never_serialized_witness :
    (list_users dbUserX).1
      = (list_users { dbUserX with users := [userRowY] }).1 :=
  ((password_never_serialized.2 dbUserX [userRowY])
    (List.Forall₂.cons ⟨rfl, rfl, rfl, rfl, rfl, rfl⟩ List.Forall₂.nil)).1

/-- Witness for C10: the response body of POST /comments `{message: "hi"}`
on an empty database carries exactly the read-contract fields. -/
theorem comment_read_contract_shape_witness :
    ∃ body,
      Response.ok 201 (commentToJson dbComment ⟨1, 0, "hi", none, none⟩)
        = Response.ok 201 body ∧
      body.keys = ["id", "message", "created_at", "user", "presentation"] :=
  comment_read_contract_shape.2.2.1 0 ⟨"hi", none, none⟩ emptyDB
    (Response.ok 201 (commentToJson dbComment ⟨1, 0, "hi", none, none⟩))
    dbComment rfl

end AfroVice
